import Mathlib

/-!
Verification development for the WireGuard gateway's peer lifecycle
subsystem: the concurrent peer registry (`internal/peers`), the HTTP
lifecycle handlers (`internal/server`), and the reclamation sweeper
(`internal/gc`).

Modelling conventions.  Times are integer nanoseconds (Go `time.Time` /
`time.Duration`); the zero `time.Time` is `0`.  Registry operations in Go
take the store lock for their whole body, so each one is a single atomic
step here and the sequential model reflects the linearized behaviour.
External collaborators (uuid generation, key generation, the WireGuard
device, the JSON renderer) appear as explicit inputs: each handler takes
the outcome of every external call it makes, and returns the resulting
registry, the device-peer set, the list of Device Gateway calls it issued,
and its HTTP status/body.
-/

/-- One managed peer record (`peers.Peer`).  `ClientIPv4` is kept as the
address's textual form and `LastHandshakeAt` as an optional time value
(the `*time.Time` pointer is dereferenced; the pointer-level view needed
for the copy-isolation question is modelled separately as `PeerRef`). -/
structure Peer where
  ID : String
  PublicKey : String
  PrivateKey : String
  PresharedKey : String
  ClientIPv4 : String
  AllowedCIDR : String
  Interface : String
  CreatedAt : Int
  LastHandshakeAt : Option Int
  deriving DecidableEq, Repr

/-- The peer registry (`peers.Store`): a map from id to record in which the
key is always the record's own `ID` (the only writer, `Add`, uses
`peer.ID` as the key), modelled as a list of records looked up by `ID`. -/
abbrev Store := List Peer

/-- Embeds `peers.ErrNotFound`. -/
inductive StoreErr
  | notFound
  deriving DecidableEq, Repr

/-- Map lookup `s.peers[id]`. -/
def Store.lookup (s : Store) (id : String) : Option Peer :=
  s.find? (fun p => p.ID == id)

/-- Map key removal `delete(s.peers, id)`. -/
def Store.eraseId (s : Store) (id : String) : Store :=
  s.filter (fun q => q.ID != id)

/-- Embeds `peers.Store.Add`: insert, overwriting any record with the same id. -/
def Store.add (s : Store) (p : Peer) : Store :=
  p :: Store.eraseId s p.ID

/-- Embeds `peers.Store.Get`: look up by id and return a value copy (in this
value-level model the copy is the record itself). -/
def Store.get (s : Store) (id : String) : Except StoreErr Peer :=
  match Store.lookup s id with
  | none => .error .notFound
  | some p => .ok p

/-- Embeds `peers.Store.Delete`: atomically remove the record and return a copy
of it, or `ErrNotFound` when the id is absent. -/
def Store.delete (s : Store) (id : String) : Except StoreErr (Peer × Store) :=
  match Store.lookup s id with
  | none => .error .notFound
  | some p => .ok (p, Store.eraseId s id)

/-- Embeds `peers.Store.List`: a snapshot of copies of all records. -/
def Store.list (s : Store) : List Peer := s

/-- Embeds `peers.Store.UpdateHandshake`: if the id exists, set the stored
record's `LastHandshakeAt` to the given time (in place, unconditionally). -/
def Store.updateHandshake (s : Store) (id : String) (t : Int) :
    Except StoreErr Store :=
  match Store.lookup s id with
  | none => .error .notFound
  | some _ =>
      .ok (s.map (fun q =>
        if q.ID == id then { q with LastHandshakeAt := some t } else q))

/-- A call issued to the Device Gateway (`wg.Manager`). -/
inductive GatewayCall
  | addPeer (publicKey : String) (preshared : Option String) (allowedIPs : String)
  | removePeer (publicKey : String)
  deriving DecidableEq, Repr

/-- Lookup in the device handshake map (`map[string]time.Time`). -/
def hsLookup (hs : List (String × Int)) (k : String) : Option Int :=
  (hs.find? (fun e => e.fst == k)).map (fun e => e.snd)

/-- Embeds `gc.GC.removePeer`: claim-and-remove from the registry; `ErrNotFound`
means another deleter already won, so return without touching the device;
otherwise parse the removed record's public key (`parseKey` stands for
`wgtypes.ParseKey`; a parse failure is logged and stops this peer's
removal) and call `Manager.RemovePeer`.  The returned list records the
Device Gateway calls made. -/
def gcRemovePeer (parseKey : String → Option String) (s : Store) (p : Peer) :
    Store × List GatewayCall :=
  match Store.delete s p.ID with
  | .error _ => (s, [])
  | .ok (removed, s') =>
      match parseKey removed.PublicKey with
      | none => (s', [])
      | some key => (s', [.removePeer key])

/-- The handshake-refresh phase of one iteration of `gc.GC.runOnce`'s
loop: if the handshake map holds a non-zero time for the snapshot peer's
public key, write it through `Store.UpdateHandshake` and mirror it onto
the local snapshot copy; a `NotFound` from the store is a logged no-op. -/
def refreshPeer (hs : List (String × Int)) (s : Store) (p : Peer) :
    Store × Peer :=
  match hsLookup hs p.PublicKey with
  | some t =>
      if t ≠ 0 then
        match Store.updateHandshake s p.ID t with
        | .ok s' => (s', { p with LastHandshakeAt := some t })
        | .error _ => (s, p)
      else (s, p)
  | none => (s, p)

/-- The eviction phase of one iteration of `gc.GC.runOnce`'s loop: a peer
with no recorded handshake is evicted when the never-connected TTL is
positive and exceeded by its age; one with a recorded handshake is evicted
when the stale-handshake TTL is positive and exceeded by its idle time. -/
def evictPhase (now nttl sttl : Int) (parseKey : String → Option String)
    (s : Store) (p : Peer) : Store × List GatewayCall :=
  match p.LastHandshakeAt with
  | none =>
      if nttl > 0 ∧ now - p.CreatedAt > nttl then gcRemovePeer parseKey s p
      else (s, [])
  | some h =>
      if sttl > 0 ∧ now - h > sttl then gcRemovePeer parseKey s p
      else (s, [])

/-- One iteration of `gc.GC.runOnce`'s per-peer loop: refresh, then apply
the eviction policy to the (possibly refreshed) snapshot record. -/
def runOnceStep (hs : List (String × Int)) (now nttl sttl : Int)
    (parseKey : String → Option String) (s : Store) (p : Peer) :
    Store × List GatewayCall :=
  let sp := refreshPeer hs s p
  evictPhase now nttl sttl parseKey sp.1 sp.2

/-- The `for _, p := range peersList` loop of `gc.GC.runOnce`, threading
the registry and collecting the Device Gateway calls. -/
def gcLoop (hs : List (String × Int)) (now nttl sttl : Int)
    (parseKey : String → Option String) :
    Store → List Peer → Store × List GatewayCall
  | s, [] => (s, [])
  | s, p :: rest =>
      let r1 := runOnceStep hs now nttl sttl parseKey s p
      let r2 := gcLoop hs now nttl sttl parseKey r1.1 rest
      (r2.1, r1.2 ++ r2.2)

/-- Embeds `gc.GC.runOnce`: pull the handshake map from the Device Gateway
(`hres` is that call's outcome; on error proceed with an empty map),
snapshot the registry, and run the per-peer loop over the snapshot. -/
def runOnce (hres : Except Unit (List (String × Int))) (now nttl sttl : Int)
    (parseKey : String → Option String) (s : Store) :
    Store × List GatewayCall :=
  let hs := match hres with
    | .error _ => []
    | .ok m => m
  gcLoop hs now nttl sttl parseKey s (Store.list s)

/-- Classification of the caller address: `net.ParseIP(c.ClientIP())`
returning nil (`invalid`), an IPv4 address (`To4() != nil`), or an IPv6
address (`To4() == nil`). -/
inductive ParsedIP
  | invalid
  | v4 (addr : String)
  | v6 (addr : String)
  deriving DecidableEq, Repr

/-- Embeds `wg.AllowedIPNet`: the /32 network for an IPv4 address (its
`net.IPNet.String()` form), an error for anything else. -/
def allowedIPNet : ParsedIP → Except Unit String
  | .v4 a => .ok (a ++ "/32")
  | _ => .error ()

/-- Server configuration consumed by the create handler
(`server.Options`). -/
structure CreateOpts where
  iface : String
  endpoint : String
  usePresharedKey : Bool
  deriving DecidableEq, Repr

/-- The per-request external inputs of `server.handleCreatePeer`: the
classified caller address, whether `ShouldBindJSON` failed with a non-EOF
error, the request note, the generated uuid, and the outcomes of the key
generations, the Device Gateway `AddPeer` call, and the template render. -/
structure CreateDeps where
  clientIP : ParsedIP
  bindErr : Bool
  note : String
  peerID : String
  genPrivate : Except Unit String
  genPreshared : Except Unit String
  addPeerResult : Except Unit Unit
  renderResult : Except Unit String
  now : Int
  deriving Repr

/-- Observable outcome of a handler: HTTP status, resulting registry,
resulting device-configured public-key set, Device Gateway calls issued,
and response body (`none` for error/empty responses). -/
structure HttpResult where
  status : Nat
  store : Store
  device : List String
  calls : List GatewayCall
  body : Option String
  deriving DecidableEq, Repr

/-- The preshared-key block of `handleCreatePeer`: when the policy flag is
set, generate a key (an error aborts with 500); otherwise the peer gets no
preshared key (`nil` pointer, empty string). -/
def genPresharedPair (flag : Bool) (gen : Except Unit String) :
    Except Unit (Option String × String) :=
  if flag then
    match gen with
    | .error _ => .error ()
    | .ok k => .ok (some k, k)
  else .ok (none, "")

/-- Embeds `server.handleCreatePeer`: classify the caller address (nil → 400,
IPv6 → 403), bind the body (non-EOF error → 400), generate the key pair
and optional preshared key (failure → 500), build the /32 allowed network,
call the Device Gateway `AddPeer` (failure → 500, nothing registered),
register the peer record, render the response (failure → 500, record kept),
and answer 201 with the rendered body.  `pubOf` stands for
`wgtypes.Key.PublicKey()` (Curve25519 public-key derivation). -/
def handleCreatePeer (pubOf : String → String) (o : CreateOpts)
    (d : CreateDeps) (s : Store) (dev : List String) : HttpResult :=
  match d.clientIP with
  | .invalid => ⟨400, s, dev, [], none⟩
  | .v6 _ => ⟨403, s, dev, [], none⟩
  | .v4 addr =>
      if d.bindErr then ⟨400, s, dev, [], none⟩
      else
        match d.genPrivate with
        | .error _ => ⟨500, s, dev, [], none⟩
        | .ok priv =>
            match genPresharedPair o.usePresharedKey d.genPreshared with
            | .error _ => ⟨500, s, dev, [], none⟩
            | .ok psk =>
                match allowedIPNet (.v4 addr) with
                | .error _ => ⟨500, s, dev, [], none⟩
                | .ok cidr =>
                    let pub := pubOf priv
                    match d.addPeerResult with
                    | .error _ =>
                        ⟨500, s, dev, [.addPeer pub psk.1 cidr], none⟩
                    | .ok _ =>
                        let peer : Peer :=
                          { ID := d.peerID, PublicKey := pub,
                            PrivateKey := priv, PresharedKey := psk.2,
                            ClientIPv4 := addr, AllowedCIDR := cidr,
                            Interface := o.iface, CreatedAt := d.now,
                            LastHandshakeAt := none }
                        let s' := Store.add s peer
                        let dev' := pub :: dev
                        match d.renderResult with
                        | .error _ =>
                            ⟨500, s', dev', [.addPeer pub psk.1 cidr], none⟩
                        | .ok rendered =>
                            ⟨201, s', dev', [.addPeer pub psk.1 cidr],
                              some rendered⟩

/-- The per-request external input of `server.handleDeletePeer`: the
outcome of the Device Gateway `RemovePeer` call. -/
structure DeleteDeps where
  removeResult : Except Unit Unit
  deriving Repr

/-- Embeds `server.handleDeletePeer`: atomically claim-and-remove the record from
the registry (`ErrNotFound` → 404, nothing else happens), parse its stored
public key (failure → 500, entry stays removed), call the Device Gateway
`RemovePeer` (failure → 500, entry stays removed), and on success answer
204 with no body. -/
def handleDeletePeer (parseKey : String → Option String) (d : DeleteDeps)
    (id : String) (s : Store) (dev : List String) : HttpResult :=
  match Store.delete s id with
  | .error _ => ⟨404, s, dev, [], none⟩
  | .ok (peer, s') =>
      match parseKey peer.PublicKey with
      | none => ⟨500, s', dev, [], none⟩
      | some key =>
          match d.removeResult with
          | .error _ => ⟨500, s', dev, [.removePeer key], none⟩
          | .ok _ =>
              ⟨204, s', dev.filter (fun k => k != key),
                [.removePeer key], none⟩

/-- Embeds `peers.Peer` at the memory level, for the copy-isolation question:
`LastHandshakeAt` is a `*time.Time` (nil or an address into the time
heap) and `ClientIPv4` a `net.IP` slice header (the address of its backing
byte array). -/
structure PeerRef where
  ID : String
  PublicKey : String
  PrivateKey : String
  PresharedKey : String
  ClientIPv4 : Nat
  AllowedCIDR : String
  Interface : String
  CreatedAt : Int
  LastHandshakeAt : Option Nat
  deriving DecidableEq, Repr

/-- The heap of pointer referents: `time.Time` cells and byte-slice
backing arrays. -/
structure Heap where
  timeAt : Nat → Int
  bytesAt : Nat → List Nat

/-- The registry at the memory level. -/
abbrev RefStore := List PeerRef

/-- Map lookup on the memory-level registry. -/
def RefStore.lookup (s : RefStore) (id : String) : Option PeerRef :=
  s.find? (fun p => p.ID == id)

/-- Embeds `peers.Store.Get` at the memory level: `cp := *peer` copies the struct
field for field — including the `LastHandshakeAt` pointer and the
`ClientIPv4` slice header — so the returned copy is the identical
structure value, sharing both referents with the stored record. -/
def RefStore.get (s : RefStore) (id : String) : Except StoreErr PeerRef :=
  match RefStore.lookup s id with
  | none => .error .notFound
  | some p => .ok p

/-- Dereference a record's `LastHandshakeAt` pointer in a heap. -/
def derefHandshake (h : Heap) (p : PeerRef) : Option Int :=
  p.LastHandshakeAt.map h.timeAt

/-- Read a record's client address bytes from a heap. -/
def readClientBytes (h : Heap) (p : PeerRef) : List Nat :=
  h.bytesAt p.ClientIPv4

/-- A caller's write through a `*time.Time` it holds. -/
def heapWriteTime (h : Heap) (a : Nat) (v : Int) : Heap :=
  { h with timeAt := fun x => if x = a then v else h.timeAt x }

/-- A caller's write into a byte slice it holds. -/
def heapWriteBytes (h : Heap) (a : Nat) (v : List Nat) : Heap :=
  { h with bytesAt := fun x => if x = a then v else h.bytesAt x }

/-- A concrete `wgtypes.ParseKey` stand-in that accepts every key. -/
def acceptKey (k : String) : Option String := some k

/-- A concrete public-key derivation stand-in. -/
def demoPub (k : String) : String := "pub-" ++ k

/-- A concrete never-connected peer, for witnesses. -/
def demoPeer : Peer :=
  { ID := "p", PublicKey := "PK", PrivateKey := "SK", PresharedKey := "",
    ClientIPv4 := "10.0.0.1", AllowedCIDR := "10.0.0.1/32",
    Interface := "wg0", CreatedAt := 0, LastHandshakeAt := none }

/-- A concrete one-record registry, for witnesses. -/
def demoStore : Store := [demoPeer]

/-- A peer whose id is absent from `demoStore`, for witnesses. -/
def ghostPeer : Peer := { demoPeer with ID := "zz" }

/-- A concrete peer that has handshaked at time 100, for the handshake
regression counterexample. -/
def c5Peer : Peer := { demoPeer with LastHandshakeAt := some 100 }

/-- Concrete server options with the preshared-key policy off. -/
def demoOpts : CreateOpts :=
  { iface := "wg0", endpoint := "vpn.example.com:51820",
    usePresharedKey := false }

/-- Concrete server options with the preshared-key policy on. -/
def demoOptsPsk : CreateOpts := { demoOpts with usePresharedKey := true }

/-- Concrete external-call outcomes for a fully successful create. -/
def demoDeps : CreateDeps :=
  { clientIP := .v4 "10.0.0.1", bindErr := false, note := "",
    peerID := "id1", genPrivate := .ok "SK", genPreshared := .ok "PSK1",
    addPeerResult := .ok (), renderResult := .ok "body", now := 0 }

/-- Concrete memory-level peer whose handshake pointer is address 7 and
whose client-address slice is backed at address 3. -/
def refDemoPeer : PeerRef :=
  { ID := "p", PublicKey := "PK", PrivateKey := "SK", PresharedKey := "",
    ClientIPv4 := 3, AllowedCIDR := "10.0.0.1/32", Interface := "wg0",
    CreatedAt := 0, LastHandshakeAt := some 7 }

/-- Concrete memory-level registry holding `refDemoPeer`. -/
def refDemoStore : RefStore := [refDemoPeer]

/-- Concrete heap: time cell 100 at address 7, bytes 10.0.0.1 at address 3. -/
def refDemoHeap : Heap :=
  { timeAt := fun a => if a = 7 then 100 else 0,
    bytesAt := fun a => if a = 3 then [10, 0, 0, 1] else [] }

/-- Lookup in the erased store: erasing `idX` removes exactly the records
with that id and preserves every other lookup. -/
theorem lookup_eraseId (s : Store) (idX j : String) :
    Store.lookup (Store.eraseId s idX) j =
      if j = idX then none else Store.lookup s j := by
  induction s with
  | nil => simp [Store.lookup, Store.eraseId]
  | cons q rest ih =>
      by_cases hq : q.ID = idX
      · have he : Store.eraseId (q :: rest) idX = Store.eraseId rest idX := by
          simp [Store.eraseId, List.filter_cons, hq]
        rw [he, ih]
        by_cases hj : j = idX
        · simp [hj]
        · have hqj : q.ID ≠ j := fun hc => hj (by rw [← hc, hq])
          rw [if_neg hj, if_neg hj]
          show Store.lookup rest j = Store.lookup (q :: rest) j
          unfold Store.lookup
          rw [List.find?_cons_of_neg (p := fun r => r.ID == j) (a := q) rest
            (by simp [hqj])]
      · have he : Store.eraseId (q :: rest) idX = q :: Store.eraseId rest idX := by
          simp [Store.eraseId, List.filter_cons, hq]
        rw [he]
        by_cases hqj : q.ID = j
        · have hj : ¬ j = idX := fun h => hq (by rw [hqj, h])
          unfold Store.lookup
          rw [List.find?_cons_of_pos (p := fun r => r.ID == j) (a := q)
              (Store.eraseId rest idX) (by simp [hqj]),
            List.find?_cons_of_pos (p := fun r => r.ID == j) (a := q) rest
              (by simp [hqj]),
            if_neg hj]
        · unfold Store.lookup
          rw [List.find?_cons_of_neg (p := fun r => r.ID == j) (a := q)
              (Store.eraseId rest idX) (by simp [hqj]),
            List.find?_cons_of_neg (p := fun r => r.ID == j) (a := q) rest
              (by simp [hqj])]
          exact ih

/-- Looking up a freshly added record finds exactly that record. -/
theorem lookup_add_self (s : Store) (p : Peer) :
    Store.lookup (Store.add s p) p.ID = some p := by
  unfold Store.add Store.lookup
  rw [List.find?_cons_of_pos (p := fun r => r.ID == p.ID) (a := p) _ (by simp)]

/-- Mapping the update-in-place function over the store rewrites the
looked-up record and nothing observable else at that id. -/
theorem lookup_map_update (s : Store) (id : String) (t : Int) (p : Peer)
    (h : Store.lookup s id = some p) :
    Store.lookup
      (s.map (fun q =>
        if q.ID == id then { q with LastHandshakeAt := some t } else q)) id =
      some { p with LastHandshakeAt := some t } := by
  induction s with
  | nil => simp [Store.lookup] at h
  | cons q rest ih =>
      by_cases hq : q.ID = id
      · unfold Store.lookup at h
        rw [List.find?_cons_of_pos (p := fun r => r.ID == id) (a := q) rest
          (by simp [hq])] at h
        have hpq : q = p := by injection h
        subst hpq
        unfold Store.lookup
        rw [List.map_cons, if_pos (by simp [hq])]
        exact List.find?_cons_of_pos _ (by simp [hq])
      · unfold Store.lookup at h
        rw [List.find?_cons_of_neg (p := fun r => r.ID == id) (a := q) rest
          (by simp [hq])] at h
        have ih' := ih h
        unfold Store.lookup at ih' ⊢
        rw [List.map_cons, if_neg (by simp [hq]),
          List.find?_cons_of_neg (p := fun r => r.ID == id) (a := q) _
            (by simp [hq])]
        exact ih'

/-- When the id is present, `updateHandshake` succeeds with the mapped
store. -/
theorem updateHandshake_eq (s : Store) (id : String) (t : Int) (p : Peer)
    (h : Store.lookup s id = some p) :
    Store.updateHandshake s id t =
      .ok (s.map (fun q =>
        if q.ID == id then { q with LastHandshakeAt := some t } else q)) := by
  unfold Store.updateHandshake
  rw [h]

/-- The sweeper's claim-and-remove leaves the store unchanged or erases
exactly the claimed id. -/
theorem gcRemovePeer_fst (pk : String → Option String) (s : Store) (p : Peer) :
    (gcRemovePeer pk s p).1 = s ∨
    (gcRemovePeer pk s p).1 = Store.eraseId s p.ID := by
  unfold gcRemovePeer Store.delete
  cases hlk : Store.lookup s p.ID with
  | none => left; rfl
  | some q =>
      right
      show (match pk q.PublicKey with
        | none => (Store.eraseId s p.ID, ([] : List GatewayCall))
        | some key => (Store.eraseId s p.ID, [.removePeer key])).1 =
        Store.eraseId s p.ID
      cases pk q.PublicKey <;> rfl

/-- When the claim-and-remove succeeds, the store is exactly the erased
store. -/
theorem gcRemovePeer_fst_of_mem (pk : String → Option String) (s : Store)
    (p : Peer) (h : Store.lookup s p.ID = some p) :
    (gcRemovePeer pk s p).1 = Store.eraseId s p.ID := by
  unfold gcRemovePeer Store.delete
  rw [h]
  show (match pk p.PublicKey with
    | none => (Store.eraseId s p.ID, ([] : List GatewayCall))
    | some key => (Store.eraseId s p.ID, [.removePeer key])).1 =
    Store.eraseId s p.ID
  cases pk p.PublicKey <;> rfl

/-- Eviction-phase equation for a peer with no recorded handshake. -/
theorem evictPhase_none (now nttl sttl : Int) (pk : String → Option String)
    (s : Store) (p : Peer) (hl : p.LastHandshakeAt = none) :
    evictPhase now nttl sttl pk s p =
      if nttl > 0 ∧ now - p.CreatedAt > nttl then gcRemovePeer pk s p
      else (s, []) := by
  unfold evictPhase
  rw [hl]

/-- Eviction-phase equation for a peer with a recorded handshake. -/
theorem evictPhase_some (now nttl sttl : Int) (pk : String → Option String)
    (s : Store) (p : Peer) (t : Int) (hl : p.LastHandshakeAt = some t) :
    evictPhase now nttl sttl pk s p =
      if sttl > 0 ∧ now - t > sttl then gcRemovePeer pk s p
      else (s, []) := by
  unfold evictPhase
  rw [hl]

/-- The eviction phase leaves the store unchanged or erases exactly the
evaluated peer's id. -/
theorem evictPhase_fst (now nttl sttl : Int) (pk : String → Option String)
    (s : Store) (p : Peer) :
    (evictPhase now nttl sttl pk s p).1 = s ∨
    (evictPhase now nttl sttl pk s p).1 = Store.eraseId s p.ID := by
  cases hl : p.LastHandshakeAt with
  | none =>
      rw [evictPhase_none now nttl sttl pk s p hl]
      by_cases hc : nttl > 0 ∧ now - p.CreatedAt > nttl
      · rw [if_pos hc]; exact gcRemovePeer_fst pk s p
      · rw [if_neg hc]; left; rfl
  | some t =>
      rw [evictPhase_some now nttl sttl pk s p t hl]
      by_cases hc : sttl > 0 ∧ now - t > sttl
      · rw [if_pos hc]; exact gcRemovePeer_fst pk s p
      · rw [if_neg hc]; left; rfl

/-- Any record surviving the eviction phase was already in the store. -/
theorem lookup_of_evictPhase (now nttl sttl : Int)
    (pk : String → Option String) (s : Store) (p : Peer) (j : String)
    (p' : Peer)
    (h : Store.lookup (evictPhase now nttl sttl pk s p).1 j = some p') :
    Store.lookup s j = some p' := by
  rcases evictPhase_fst now nttl sttl pk s p with he | he
  · rw [he] at h; exact h
  · rw [he, lookup_eraseId] at h
    by_cases hj : j = p.ID
    · rw [if_pos hj] at h; cases h
    · rw [if_neg hj] at h; exact h

/-- With an empty handshake map the refresh phase is a no-op. -/
theorem refreshPeer_nil (s : Store) (p : Peer) :
    refreshPeer [] s p = (s, p) := rfl

/-- With an empty handshake map, any record surviving the whole sweep loop
was already in the store, unchanged. -/
theorem gcLoop_nil_refines (now nttl sttl : Int)
    (pk : String → Option String) :
    ∀ (l : List Peer) (s : Store) (j : String) (p' : Peer),
      Store.lookup (gcLoop [] now nttl sttl pk s l).1 j = some p' →
      Store.lookup s j = some p'
  | [], _, _, _, h => h
  | p :: rest, s, j, p', h => by
      have h2 := gcLoop_nil_refines now nttl sttl pk rest
        (runOnceStep [] now nttl sttl pk s p).1 j p' h
      exact lookup_of_evictPhase now nttl sttl pk s p j p' h2

/-- With the policy flag on, a successful preshared-key block yields the
freshly generated key, both as the pointer passed on and as its string. -/
theorem genPresharedPair_true_ok (gen : Except Unit String)
    (psk : Option String × String)
    (h : genPresharedPair true gen = .ok psk) :
    ∃ k, gen = .ok k ∧ psk = (some k, k) := by
  unfold genPresharedPair at h
  cases hg : gen with
  | error e => rw [hg] at h; cases h
  | ok k =>
      rw [hg] at h
      refine ⟨k, rfl, ?_⟩
      have := h
      injection this with h2
      exact h2.symm

/-- Claim C1: registry delete is claim-and-remove with at-most-once
removal — a successful `delete(id)` returns the stored record and removes
it, after which `get(id)` and any further `delete(id)` return NotFound;
and the Sweeper's eviction treats a NotFound from its claim-and-remove as
already-gone, returning with an unchanged store and no Device Gateway
call. -/
theorem registry_delete_at_most_once (s : Store) (id : String) :
    (∀ (p : Peer) (s' : Store), Store.delete s id = .ok (p, s') →
      Store.lookup s id = some p ∧
      Store.get s' id = .error .notFound ∧
      Store.delete s' id = .error .notFound) ∧
    (∀ (pk : String → Option String) (p : Peer),
      Store.lookup s p.ID = none → gcRemovePeer pk s p = (s, [])) := by
  constructor
  · intro p s' hd
    unfold Store.delete at hd
    cases hlk : Store.lookup s id with
    | none => rw [hlk] at hd; cases hd
    | some q =>
        rw [hlk] at hd
        injection hd with hd2
        have hq : q = p := congrArg Prod.fst hd2
        have hs' : Store.eraseId s id = s' := congrArg Prod.snd hd2
        subst hq
        subst hs'
        refine ⟨rfl, ?_, ?_⟩
        · unfold Store.get
          rw [lookup_eraseId, if_pos rfl]
        · unfold Store.delete
          rw [lookup_eraseId, if_pos rfl]
  · intro pk p hlk
    unfold gcRemovePeer Store.delete
    rw [hlk]

/-- Witness for C1 at a concrete store: the delete of "p" succeeds once
and afterwards everything reports NotFound; the Sweeper's removal of an
absent id is a no-op with no Device Gateway call. -/
theorem registry_delete_at_most_once_witness :
    Store.delete demoStore "p" = .ok (demoPeer, Store.eraseId demoStore "p") ∧
    (Store.lookup demoStore "p" = some demoPeer ∧
      Store.get (Store.eraseId demoStore "p") "p" = .error .notFound ∧
      Store.delete (Store.eraseId demoStore "p") "p" = .error .notFound) ∧
    Store.lookup demoStore ghostPeer.ID = none ∧
    gcRemovePeer acceptKey demoStore ghostPeer = (demoStore, []) :=
  ⟨rfl,
   (registry_delete_at_most_once demoStore "p").1 demoPeer
     (Store.eraseId demoStore "p") rfl,
   by decide,
   (registry_delete_at_most_once demoStore "p").2 acceptKey ghostPeer
     (by decide)⟩

/-- Claim C2: the Sweeper's per-peer eviction decision.  For a snapshot
peer of the pass (one actually present in the registry), eviction —
removal of its id from the registry by this step — happens exactly when
the applicable TTL is positive and exceeded, judged on the record as it
stands at the eviction check (that is, after the refresh step): the
never-connected rule on `CreatedAt` when `lastHandshakeAt` is (still)
absent, the stale-handshake rule on the recorded time when present.  Each
iff also shows that a zero (or negative) threshold disables its rule and
that the other rule never applies to that case. -/
theorem gc_eviction_policy (hs : List (String × Int)) (now nttl sttl : Int)
    (pk : String → Option String) (s : Store) (p : Peer)
    (hmem : Store.lookup s p.ID = some p) :
    ((refreshPeer hs s p).2.LastHandshakeAt = none →
      (Store.lookup (runOnceStep hs now nttl sttl pk s p).1 p.ID = none ↔
        nttl > 0 ∧ now - p.CreatedAt > nttl)) ∧
    (∀ t, (refreshPeer hs s p).2.LastHandshakeAt = some t →
      (Store.lookup (runOnceStep hs now nttl sttl pk s p).1 p.ID = none ↔
        sttl > 0 ∧ now - t > sttl)) := by
  have hgen : ∃ s1,
      refreshPeer hs s p = (s1, (refreshPeer hs s p).2) ∧
      Store.lookup s1 p.ID = some (refreshPeer hs s p).2 ∧
      (refreshPeer hs s p).2.CreatedAt = p.CreatedAt := by
    cases hsl : hsLookup hs p.PublicKey with
    | none =>
        have hr : refreshPeer hs s p = (s, p) := by
          unfold refreshPeer
          rw [hsl]
        exact ⟨s, by rw [hr], by rw [hr]; exact hmem, by rw [hr]⟩
    | some t0 =>
        by_cases ht0 : t0 = 0
        · have hr : refreshPeer hs s p = (s, p) := by
            unfold refreshPeer
            rw [hsl]
            simp [ht0]
          exact ⟨s, by rw [hr], by rw [hr]; exact hmem, by rw [hr]⟩
        · have hr : refreshPeer hs s p =
              (s.map (fun q =>
                 if q.ID == p.ID then { q with LastHandshakeAt := some t0 }
                 else q),
               { p with LastHandshakeAt := some t0 }) := by
            simp [refreshPeer, hsl, ht0,
              updateHandshake_eq s p.ID t0 p hmem]
          refine ⟨_, by rw [hr], ?_, by rw [hr]⟩
          rw [hr]
          exact lookup_map_update s p.ID t0 p hmem
  obtain ⟨s1, hr, hmem1, hcreated⟩ := hgen
  have hstep : runOnceStep hs now nttl sttl pk s p =
      evictPhase now nttl sttl pk s1 (refreshPeer hs s p).2 := by
    unfold runOnceStep
    rw [hr]
  rw [hstep]
  have hid : (refreshPeer hs s p).2.ID = p.ID := by
    cases hsl : hsLookup hs p.PublicKey with
    | none =>
        unfold refreshPeer
        rw [hsl]
    | some t0 =>
        by_cases ht0 : t0 = 0
        · unfold refreshPeer
          rw [hsl]
          simp [ht0]
        · simp [refreshPeer, hsl, ht0,
            updateHandshake_eq s p.ID t0 p hmem]
  rw [← hid] at hmem1 ⊢
  rw [← hcreated]
  constructor
  · intro hl
    rw [evictPhase_none now nttl sttl pk s1 _ hl]
    by_cases hc : nttl > 0 ∧ now - (refreshPeer hs s p).2.CreatedAt > nttl
    · rw [if_pos hc, gcRemovePeer_fst_of_mem pk s1 _ hmem1, lookup_eraseId,
        if_pos rfl]
      simp [hc]
    · rw [if_neg hc]
      simp [hmem1, hc]
  · intro t hl
    rw [evictPhase_some now nttl sttl pk s1 _ t hl]
    by_cases hc : sttl > 0 ∧ now - t > sttl
    · rw [if_pos hc, gcRemovePeer_fst_of_mem pk s1 _ hmem1, lookup_eraseId,
        if_pos rfl]
      simp [hc]
    · rw [if_neg hc]
      simp [hmem1, hc]

/-- Witness for C2: a never-connected peer created at 0, checked at 20
against a TTL of 5 with no handshake entry, is evicted. -/
theorem gc_eviction_policy_witness :
    Store.lookup demoStore "p" = some demoPeer ∧
    Store.lookup (runOnceStep [] 20 5 5 acceptKey demoStore demoPeer).1 "p" =
      none :=
  ⟨by decide,
   ((gc_eviction_policy [] 20 5 5 acceptKey demoStore demoPeer
      (by decide)).1 rfl).mpr (by decide)⟩

/-- Claim C4: the delete handler claim-and-removes first (NotFound → 404
and nothing else happens); on success the entry is gone from the registry
in every outcome — a key-parse failure answers 500, a failed Device
Gateway remove answers 500, and full success answers 204 with no body. -/
theorem delete_handler_semantics (parseKey : String → Option String)
    (d : DeleteDeps) (id : String) (s : Store) (dev : List String) :
    (Store.delete s id = .error .notFound →
      handleDeletePeer parseKey d id s dev = ⟨404, s, dev, [], none⟩) ∧
    (∀ peer s', Store.delete s id = .ok (peer, s') →
      Store.lookup s' id = none ∧
      (parseKey peer.PublicKey = none →
        handleDeletePeer parseKey d id s dev = ⟨500, s', dev, [], none⟩) ∧
      (∀ key, parseKey peer.PublicKey = some key →
        (d.removeResult = .error () →
          handleDeletePeer parseKey d id s dev =
            ⟨500, s', dev, [.removePeer key], none⟩) ∧
        (d.removeResult = .ok () →
          handleDeletePeer parseKey d id s dev =
            ⟨204, s', dev.filter (fun k => k != key), [.removePeer key],
              none⟩))) := by
  constructor
  · intro h
    unfold handleDeletePeer
    rw [h]
  · intro peer s' h
    have hkey : s' = Store.eraseId s id ∧ Store.lookup s id = some peer := by
      unfold Store.delete at h
      cases hlk : Store.lookup s id with
      | none => rw [hlk] at h; cases h
      | some q =>
          rw [hlk] at h
          injection h with h2
          exact ⟨(congrArg Prod.snd h2).symm,
            congrArg some (congrArg Prod.fst h2)⟩
    obtain ⟨he, _⟩ := hkey
    have hbase : handleDeletePeer parseKey d id s dev =
        (match parseKey peer.PublicKey with
          | none => ⟨500, s', dev, [], none⟩
          | some key =>
              match d.removeResult with
              | .error _ => ⟨500, s', dev, [.removePeer key], none⟩
              | .ok _ => ⟨204, s', dev.filter (fun k => k != key),
                  [.removePeer key], none⟩) := by
      unfold handleDeletePeer
      rw [h]
    refine ⟨?_, ?_, ?_⟩
    · rw [he, lookup_eraseId, if_pos rfl]
    · intro hpk
      rw [hbase, hpk]
    · intro key hpk
      constructor
      · intro hrm
        rw [hbase, hpk, hrm]
      · intro hrm
        rw [hbase, hpk, hrm]

/-- Witness for C4 at a concrete store: deleting "p" with a working parse
and a successful Device Gateway remove answers 204 with no body, the
remove call issued once, and the registry entry gone. -/
theorem delete_handler_semantics_witness :
    Store.delete demoStore "p" = .ok (demoPeer, Store.eraseId demoStore "p") ∧
    Store.lookup (Store.eraseId demoStore "p") "p" = none ∧
    handleDeletePeer acceptKey ⟨.ok ()⟩ "p" demoStore ["PK"] =
      ⟨204, Store.eraseId demoStore "p",
        (["PK"] : List String).filter (fun k => k != "PK"),
        [.removePeer "PK"], none⟩ :=
  ⟨rfl,
   ((delete_handler_semantics acceptKey ⟨.ok ()⟩ "p" demoStore ["PK"]).2
      demoPeer (Store.eraseId demoStore "p") rfl).1,
   ((((delete_handler_semantics acceptKey ⟨.ok ()⟩ "p" demoStore
        ["PK"]).2 demoPeer (Store.eraseId demoStore "p") rfl).2.2
      "PK" rfl).2 rfl)⟩

/-- Claim C5 counterexample: `lastHandshakeAt` is not monotone.  A peer
whose stored handshake time is 100 is refreshed by a sweep whose device
map reports the older non-zero time 50, and the stored value moves
backwards to 50. -/
theorem handshake_regression_counterexample :
    c5Peer.LastHandshakeAt = some 100 ∧
    Store.lookup (runOnce (.ok [("PK", 50)]) 120 0 1000 acceptKey
        [c5Peer]).1 "p" =
      some { c5Peer with LastHandshakeAt := some 50 } ∧
    (50 : Int) < 100 := by
  refine ⟨rfl, ?_, by decide⟩
  decide

/-- Claim C5 as amended: `UpdateHandshake` overwrites the stored
`lastHandshakeAt` with exactly the given timestamp, regardless of the
previously stored value — so the field, once set, stays non-absent, and it
is non-decreasing only when the device-reported timestamps are; the code
does not clamp an older report. -/
theorem update_handshake_overwrites (s : Store) (id : String) (t : Int)
    (p : Peer) (hmem : Store.lookup s id = some p) :
    ∃ s', Store.updateHandshake s id t = .ok s' ∧
      Store.lookup s' id = some { p with LastHandshakeAt := some t } := by
  refine ⟨_, updateHandshake_eq s id t p hmem, ?_⟩
  exact lookup_map_update s id t p hmem

/-- Witness for the amended C5: updating "p" to time 50 in the concrete
store stores exactly 50. -/
theorem update_handshake_overwrites_witness :
    Store.lookup [c5Peer] "p" = some c5Peer ∧
    ∃ s', Store.updateHandshake [c5Peer] "p" 50 = .ok s' ∧
      Store.lookup s' "p" = some { c5Peer with LastHandshakeAt := some 50 } :=
  ⟨by decide, update_handshake_overwrites [c5Peer] "p" 50 c5Peer (by decide)⟩

/-- Claim C7: a failed Device Gateway handshake read is tolerated — the
pass behaves identically to one that read an empty handshake map (so every
peer faces the same eviction rules it would with no handshake entry), and
no surviving record is refreshed: any record still present after the pass
was already in the registry, unchanged. -/
theorem gc_tolerates_handshake_error (now nttl sttl : Int)
    (pk : String → Option String) (s : Store) :
    runOnce (.error ()) now nttl sttl pk s =
      runOnce (.ok []) now nttl sttl pk s ∧
    ∀ (j : String) (p' : Peer),
      Store.lookup (runOnce (.error ()) now nttl sttl pk s).1 j = some p' →
      Store.lookup s j = some p' := by
  constructor
  · rfl
  · intro j p' h
    exact gcLoop_nil_refines now nttl sttl pk (Store.list s) s j p' h

/-- Witness for C7: with thresholds disabled, the failed-read pass equals
the empty-map pass and the surviving record is the unchanged original. -/
theorem gc_tolerates_handshake_error_witness :
    runOnce (.error ()) 100 0 0 acceptKey demoStore =
      runOnce (.ok []) 100 0 0 acceptKey demoStore ∧
    Store.lookup demoStore "p" = some demoPeer :=
  ⟨(gc_tolerates_handshake_error 100 0 0 acceptKey demoStore).1,
   (gc_tolerates_handshake_error 100 0 0 acceptKey demoStore).2 "p" demoPeer
     (by decide)⟩

/-- Anatomy of a 201 create: a created response implies the handler took
the full path — IPv4 caller, no bind error, successful key generations,
successful Device Gateway add, successful render — and pins down the
registered record and the single gateway call. -/
theorem create_201_spec (pubOf : String → String) (o : CreateOpts)
    (d : CreateDeps) (s : Store) (dev : List String)
    (h201 : (handleCreatePeer pubOf o d s dev).status = 201) :
    ∃ addr priv psk rendered,
      d.clientIP = .v4 addr ∧ d.bindErr = false ∧
      d.genPrivate = .ok priv ∧
      genPresharedPair o.usePresharedKey d.genPreshared = .ok psk ∧
      d.addPeerResult = .ok () ∧ d.renderResult = .ok rendered ∧
      Store.lookup (handleCreatePeer pubOf o d s dev).store d.peerID =
        some { ID := d.peerID, PublicKey := pubOf priv, PrivateKey := priv,
               PresharedKey := psk.2, ClientIPv4 := addr,
               AllowedCIDR := addr ++ "/32", Interface := o.iface,
               CreatedAt := d.now, LastHandshakeAt := none } ∧
      (handleCreatePeer pubOf o d s dev).calls =
        [.addPeer (pubOf priv) psk.1 (addr ++ "/32")] := by
  cases hip : d.clientIP with
  | invalid => simp [handleCreatePeer, hip] at h201
  | v6 a => simp [handleCreatePeer, hip] at h201
  | v4 a =>
      cases hb : d.bindErr with
      | true => simp [handleCreatePeer, hip, hb] at h201
      | false =>
          cases hpriv : d.genPrivate with
          | error e =>
              cases e
              simp [handleCreatePeer, hip, hb, hpriv] at h201
          | ok priv =>
              cases hpsk : genPresharedPair o.usePresharedKey d.genPreshared with
              | error e =>
                  cases e
                  simp [handleCreatePeer, hip, hb, hpriv, hpsk] at h201
              | ok psk =>
                  cases hadd : d.addPeerResult with
                  | error e =>
                      cases e
                      simp [handleCreatePeer, hip, hb, hpriv, hpsk, hadd,
                        allowedIPNet] at h201
                  | ok u =>
                      cases u
                      cases hrender : d.renderResult with
                      | error e =>
                          cases e
                          simp [handleCreatePeer, hip, hb, hpriv, hpsk,
                            hadd, hrender, allowedIPNet] at h201
                      | ok rendered =>
                          refine ⟨a, priv, psk, rendered, rfl, rfl, rfl,
                            rfl, rfl, rfl, ?_, ?_⟩
                          · have hres :
                                Store.lookup
                                  (handleCreatePeer pubOf o d s dev).store
                                  d.peerID =
                                Store.lookup
                                  (Store.add s
                                    { ID := d.peerID,
                                      PublicKey := pubOf priv,
                                      PrivateKey := priv,
                                      PresharedKey := psk.2,
                                      ClientIPv4 := a,
                                      AllowedCIDR := a ++ "/32",
                                      Interface := o.iface,
                                      CreatedAt := d.now,
                                      LastHandshakeAt := none }) d.peerID := by
                              simp [handleCreatePeer, hip, hb, hpriv, hpsk,
                                hadd, hrender, allowedIPNet]
                            rw [hres]
                            exact lookup_add_self s _
                          · simp [handleCreatePeer, hip, hb, hpriv, hpsk,
                              hadd, hrender, allowedIPNet]

/-- Claim C9: the preshared-key policy toggle.  With the flag off, a
successful create registers a peer with no preshared key and passes `nil`
to the Device Gateway; with the flag on it registers exactly the freshly
generated key and passes it on, so two creates whose generated keys differ
(which is what fresh generation provides) register peers with different
preshared keys. -/
theorem preshared_key_policy (pubOf : String → String) (o : CreateOpts)
    (d d2 : CreateDeps) (s s2 : Store) (dev dev2 : List String) :
    (o.usePresharedKey = false →
      (handleCreatePeer pubOf o d s dev).status = 201 →
      (∃ p, Store.lookup (handleCreatePeer pubOf o d s dev).store d.peerID =
          some p ∧ p.PresharedKey = "") ∧
      ∀ pub psk cidr,
        GatewayCall.addPeer pub psk cidr ∈
          (handleCreatePeer pubOf o d s dev).calls → psk = none) ∧
    (o.usePresharedKey = true →
      (handleCreatePeer pubOf o d s dev).status = 201 →
      ∃ k, d.genPreshared = .ok k ∧
        (∃ p, Store.lookup (handleCreatePeer pubOf o d s dev).store
            d.peerID = some p ∧ p.PresharedKey = k) ∧
        ∀ pub psk cidr,
          GatewayCall.addPeer pub psk cidr ∈
            (handleCreatePeer pubOf o d s dev).calls → psk = some k) ∧
    (o.usePresharedKey = true →
      (handleCreatePeer pubOf o d s dev).status = 201 →
      (handleCreatePeer pubOf o d2 s2 dev2).status = 201 →
      ∀ k1 k2, d.genPreshared = .ok k1 → d2.genPreshared = .ok k2 →
        k1 ≠ k2 →
        ∀ p1 p2,
          Store.lookup (handleCreatePeer pubOf o d s dev).store d.peerID =
            some p1 →
          Store.lookup (handleCreatePeer pubOf o d2 s2 dev2).store
            d2.peerID = some p2 →
          p1.PresharedKey ≠ p2.PresharedKey) := by
  refine ⟨?_, ?_, ?_⟩
  · intro hflag h201
    obtain ⟨addr, priv, psk, rendered, hip, hb, hpriv, hpsk, hadd, hrender,
      hlook, hcalls⟩ := create_201_spec pubOf o d s dev h201
    rw [hflag] at hpsk
    have h0 : genPresharedPair false d.genPreshared = .ok (none, "") := rfl
    rw [h0] at hpsk
    injection hpsk with hpsk1
    rw [← hpsk1] at hlook hcalls
    constructor
    · exact ⟨_, hlook, rfl⟩
    · intro pub psk' cidr hmem
      rw [hcalls] at hmem
      simp at hmem
      exact hmem.2.1
  · intro hflag h201
    obtain ⟨addr, priv, psk, rendered, hip, hb, hpriv, hpsk, hadd, hrender,
      hlook, hcalls⟩ := create_201_spec pubOf o d s dev h201
    rw [hflag] at hpsk
    obtain ⟨k, hgen, hpskEq⟩ := genPresharedPair_true_ok _ _ hpsk
    subst hpskEq
    refine ⟨k, hgen, ⟨_, hlook, rfl⟩, ?_⟩
    intro pub psk' cidr hmem
    rw [hcalls] at hmem
    simp at hmem
    exact hmem.2.1
  · intro hflag h201 h201b k1 k2 hk1 hk2 hne p1 p2 hl1 hl2
    obtain ⟨addr, priv, psk, rendered, hip, hb, hpriv, hpsk, hadd, hrender,
      hlook, hcalls⟩ := create_201_spec pubOf o d s dev h201
    obtain ⟨addr2, priv2, psk2, rendered2, hip2, hb2, hpriv2, hpsk2, hadd2,
      hrender2, hlook2, hcalls2⟩ := create_201_spec pubOf o d2 s2 dev2 h201b
    rw [hflag] at hpsk hpsk2
    obtain ⟨ka, hga, hpa⟩ := genPresharedPair_true_ok _ _ hpsk
    obtain ⟨kb, hgb, hpb⟩ := genPresharedPair_true_ok _ _ hpsk2
    subst hpa
    subst hpb
    rw [hga] at hk1
    injection hk1 with hka
    rw [hgb] at hk2
    injection hk2 with hkb
    have hp1 : p1.PresharedKey = ka := by
      have := hlook.symm.trans hl1
      injection this with h2
      rw [← h2]
    have hp2 : p2.PresharedKey = kb := by
      have := hlook2.symm.trans hl2
      injection this with h2
      rw [← h2]
    rw [hp1, hp2, hka, hkb]
    exact hne

/-- Witness for C9: one concrete create with the flag off stores no
preshared key and passes `nil`; two concrete creates with the flag on and
distinct generated keys store those distinct keys. -/
theorem preshared_key_policy_witness :
    (handleCreatePeer demoPub demoOpts demoDeps [] []).status = 201 ∧
    (handleCreatePeer demoPub demoOptsPsk demoDeps [] []).status = 201 ∧
    (handleCreatePeer demoPub demoOptsPsk
      { demoDeps with peerID := "id2", genPreshared := .ok "PSK2" } [] []).status
      = 201 ∧
    (∃ p, Store.lookup
        (handleCreatePeer demoPub demoOpts demoDeps [] []).store "id1" =
        some p ∧ p.PresharedKey = "") ∧
    (∀ p1 p2,
      Store.lookup
        (handleCreatePeer demoPub demoOptsPsk demoDeps [] []).store "id1" =
        some p1 →
      Store.lookup
        (handleCreatePeer demoPub demoOptsPsk
          { demoDeps with peerID := "id2", genPreshared := .ok "PSK2" }
          [] []).store "id2" = some p2 →
      p1.PresharedKey ≠ p2.PresharedKey) :=
  ⟨rfl, rfl, rfl,
   ((preshared_key_policy demoPub demoOpts demoDeps demoDeps [] [] [] []).1
      rfl rfl).1,
   fun p1 p2 h1 h2 =>
     (preshared_key_policy demoPub demoOptsPsk demoDeps
        { demoDeps with peerID := "id2", genPreshared := .ok "PSK2" }
        [] [] [] []).2.2 rfl rfl rfl "PSK1" "PSK2" rfl rfl
        (by decide) p1 p2 h1 h2⟩

/-- Claim C3: the create handler registers only after the Device Gateway
add succeeds.  When the `AddPeer` outcome is an error, the registry and
the device set are untouched and no body is rendered, whatever else the
request did; and if the handler actually issued the device call (its call
list is non-empty), the caller gets a 500. -/
theorem create_registers_only_after_device_success
    (pubOf : String → String) (o : CreateOpts) (d : CreateDeps)
    (s : Store) (dev : List String)
    (hfail : d.addPeerResult = .error ()) :
    (handleCreatePeer pubOf o d s dev).store = s ∧
    (handleCreatePeer pubOf o d s dev).device = dev ∧
    (handleCreatePeer pubOf o d s dev).body = none ∧
    ((handleCreatePeer pubOf o d s dev).calls ≠ [] →
      (handleCreatePeer pubOf o d s dev).status = 500) := by
  cases hip : d.clientIP with
  | invalid =>
      have hres : handleCreatePeer pubOf o d s dev =
          ⟨400, s, dev, [], none⟩ := by
        simp [handleCreatePeer, hip]
      rw [hres]
      exact ⟨rfl, rfl, rfl, fun h => absurd rfl h⟩
  | v6 a =>
      have hres : handleCreatePeer pubOf o d s dev =
          ⟨403, s, dev, [], none⟩ := by
        simp [handleCreatePeer, hip]
      rw [hres]
      exact ⟨rfl, rfl, rfl, fun h => absurd rfl h⟩
  | v4 a =>
      cases hb : d.bindErr with
      | true =>
          have hres : handleCreatePeer pubOf o d s dev =
              ⟨400, s, dev, [], none⟩ := by
            simp [handleCreatePeer, hip, hb]
          rw [hres]
          exact ⟨rfl, rfl, rfl, fun h => absurd rfl h⟩
      | false =>
          cases hpriv : d.genPrivate with
          | error e =>
              cases e
              have hres : handleCreatePeer pubOf o d s dev =
                  ⟨500, s, dev, [], none⟩ := by
                simp [handleCreatePeer, hip, hb, hpriv]
              rw [hres]
              exact ⟨rfl, rfl, rfl, fun h => absurd rfl h⟩
          | ok priv =>
              cases hpsk : genPresharedPair o.usePresharedKey
                  d.genPreshared with
              | error e =>
                  cases e
                  have hres : handleCreatePeer pubOf o d s dev =
                      ⟨500, s, dev, [], none⟩ := by
                    simp [handleCreatePeer, hip, hb, hpriv, hpsk]
                  rw [hres]
                  exact ⟨rfl, rfl, rfl, fun h => absurd rfl h⟩
              | ok psk =>
                  have hres : handleCreatePeer pubOf o d s dev =
                      ⟨500, s, dev,
                        [.addPeer (pubOf priv) psk.1 (a ++ "/32")],
                        none⟩ := by
                    simp [handleCreatePeer, hip, hb, hpriv, hpsk, hfail,
                      allowedIPNet]
                  rw [hres]
                  exact ⟨rfl, rfl, rfl, fun _ => rfl⟩

/-- Witness for C3: a concrete create whose Device Gateway add fails
leaves the registry and device set untouched, renders nothing, and
answers 500. -/
theorem create_registers_only_after_device_success_witness :
    ({ demoDeps with addPeerResult := .error () } : CreateDeps).addPeerResult
      = .error () ∧
    ((handleCreatePeer demoPub demoOpts
        { demoDeps with addPeerResult := .error () } demoStore []).store =
      demoStore ∧
     (handleCreatePeer demoPub demoOpts
        { demoDeps with addPeerResult := .error () } demoStore []).device =
      [] ∧
     (handleCreatePeer demoPub demoOpts
        { demoDeps with addPeerResult := .error () } demoStore []).body =
      none ∧
     ((handleCreatePeer demoPub demoOpts
        { demoDeps with addPeerResult := .error () } demoStore []).calls ≠
        [] →
      (handleCreatePeer demoPub demoOpts
        { demoDeps with addPeerResult := .error () } demoStore []).status =
        500)) :=
  ⟨rfl,
   create_registers_only_after_device_success demoPub demoOpts
     { demoDeps with addPeerResult := .error () } demoStore [] rfl⟩

/-- Claim C6: IPv6 rejection before any mutation.  An IPv6 caller gets
exactly the 403 response with the registry, device set and call list
untouched and no body; an unparseable caller address gets the distinct
400 response, also before any mutation. -/
theorem create_rejects_non_ipv4 (pubOf : String → String) (o : CreateOpts)
    (d : CreateDeps) (s : Store) (dev : List String) :
    (∀ a, d.clientIP = .v6 a →
      handleCreatePeer pubOf o d s dev = ⟨403, s, dev, [], none⟩) ∧
    (d.clientIP = .invalid →
      handleCreatePeer pubOf o d s dev = ⟨400, s, dev, [], none⟩) := by
  constructor
  · intro a h
    unfold handleCreatePeer
    rw [h]
  · intro h
    unfold handleCreatePeer
    rw [h]

/-- Witness for C6: a concrete IPv6 create is answered 403 with no state
change and an unparseable address is answered 400. -/
theorem create_rejects_non_ipv4_witness :
    ({ demoDeps with clientIP := .v6 "fe80::1" } : CreateDeps).clientIP =
      .v6 "fe80::1" ∧
    handleCreatePeer demoPub demoOpts
      { demoDeps with clientIP := .v6 "fe80::1" } demoStore [] =
      ⟨403, demoStore, [], [], none⟩ ∧
    ({ demoDeps with clientIP := .invalid } : CreateDeps).clientIP =
      .invalid ∧
    handleCreatePeer demoPub demoOpts
      { demoDeps with clientIP := .invalid } demoStore [] =
      ⟨400, demoStore, [], [], none⟩ :=
  ⟨rfl,
   (create_rejects_non_ipv4 demoPub demoOpts
      { demoDeps with clientIP := .v6 "fe80::1" } demoStore []).1
     "fe80::1" rfl,
   rfl,
   (create_rejects_non_ipv4 demoPub demoOpts
      { demoDeps with clientIP := .invalid } demoStore []).2 rfl⟩

/-- Claim C10 (implicit): create is not atomic with respect to response
rendering.  When everything up to and including the Device Gateway add and
the registration succeeds but the template render fails, the caller gets a
500 with no body while the fully provisioned peer remains registered and
remains configured on the device. -/
theorem create_render_failure_leaves_peer (pubOf : String → String)
    (o : CreateOpts) (d : CreateDeps) (s : Store) (dev : List String)
    (a priv : String)
    (hip : d.clientIP = .v4 a) (hb : d.bindErr = false)
    (hpriv : d.genPrivate = .ok priv)
    (hpsk : ∃ pskp,
      genPresharedPair o.usePresharedKey d.genPreshared = .ok pskp)
    (hadd : d.addPeerResult = .ok ())
    (hrender : d.renderResult = .error ()) :
    (handleCreatePeer pubOf o d s dev).status = 500 ∧
    (handleCreatePeer pubOf o d s dev).body = none ∧
    (∃ p, Store.lookup (handleCreatePeer pubOf o d s dev).store d.peerID =
      some p ∧ p.PublicKey = pubOf priv) ∧
    pubOf priv ∈ (handleCreatePeer pubOf o d s dev).device := by
  obtain ⟨pskp, hpsk⟩ := hpsk
  have hres : handleCreatePeer pubOf o d s dev =
      ⟨500,
        Store.add s
          { ID := d.peerID, PublicKey := pubOf priv, PrivateKey := priv,
            PresharedKey := pskp.2, ClientIPv4 := a,
            AllowedCIDR := a ++ "/32", Interface := o.iface,
            CreatedAt := d.now, LastHandshakeAt := none },
        pubOf priv :: dev,
        [.addPeer (pubOf priv) pskp.1 (a ++ "/32")], none⟩ := by
    simp [handleCreatePeer, hip, hb, hpriv, hpsk, hadd, hrender,
      allowedIPNet]
  rw [hres]
  exact ⟨rfl, rfl,
    ⟨{ ID := d.peerID, PublicKey := pubOf priv, PrivateKey := priv,
       PresharedKey := pskp.2, ClientIPv4 := a, AllowedCIDR := a ++ "/32",
       Interface := o.iface, CreatedAt := d.now, LastHandshakeAt := none },
     lookup_add_self s _, rfl⟩,
    List.mem_cons_self _ _⟩

/-- Witness for C10: a concrete create whose render fails answers 500
while the peer stays registered and on the device. -/
theorem create_render_failure_leaves_peer_witness :
    ({ demoDeps with renderResult := .error () } : CreateDeps).renderResult
      = .error () ∧
    ((handleCreatePeer demoPub demoOpts
        { demoDeps with renderResult := .error () } [] []).status = 500 ∧
     (handleCreatePeer demoPub demoOpts
        { demoDeps with renderResult := .error () } [] []).body = none ∧
     (∃ p, Store.lookup (handleCreatePeer demoPub demoOpts
        { demoDeps with renderResult := .error () } [] []).store "id1" =
        some p ∧ p.PublicKey = demoPub "SK") ∧
     demoPub "SK" ∈ (handleCreatePeer demoPub demoOpts
        { demoDeps with renderResult := .error () } [] []).device) :=
  ⟨rfl,
   create_render_failure_leaves_peer demoPub demoOpts
     { demoDeps with renderResult := .error () } [] [] "10.0.0.1" "SK"
     rfl rfl rfl ⟨(none, ""), rfl⟩ rfl rfl⟩

/-- Claim C8 counterexample: the copy returned by Get is shallow.  At a
concrete store and heap, the returned copy is the identical structure
value as the stored record — its `LastHandshakeAt` pointer (address 7) and
`ClientIPv4` slice (address 3) are the stored record's own — so a caller's
write through either one changes what the stored record dereferences to
(100 becomes 50; the address bytes become 9.9.9.9), refuting isolation. -/
theorem get_copy_aliasing_counterexample :
    RefStore.get refDemoStore "p" = .ok refDemoPeer ∧
    RefStore.lookup refDemoStore "p" = some refDemoPeer ∧
    refDemoPeer.LastHandshakeAt = some 7 ∧
    refDemoPeer.ClientIPv4 = 3 ∧
    derefHandshake refDemoHeap refDemoPeer = some 100 ∧
    derefHandshake (heapWriteTime refDemoHeap 7 50) refDemoPeer = some 50 ∧
    readClientBytes refDemoHeap refDemoPeer = [10, 0, 0, 1] ∧
    readClientBytes (heapWriteBytes refDemoHeap 3 [9, 9, 9, 9]) refDemoPeer
      = [9, 9, 9, 9] := by
  refine ⟨rfl, rfl, rfl, rfl, rfl, ?_, rfl, ?_⟩ <;> decide

/-- Claim C8 as amended: Get returns a shallow copy — the returned value
is field-for-field the stored structure, so its scalar fields are isolated
value copies, but its `LastHandshakeAt` pointer and `ClientIPv4` slice
address are the stored record's own, and a heap write through the returned
copy's handshake pointer changes the value the stored record dereferences
to. -/
theorem get_returns_shallow_copy (s : RefStore) (id : String) (p : PeerRef)
    (h : RefStore.get s id = .ok p) :
    RefStore.lookup s id = some p ∧
    (∀ q, RefStore.lookup s id = some q →
      p.LastHandshakeAt = q.LastHandshakeAt ∧ p.ClientIPv4 = q.ClientIPv4) ∧
    (∀ (heap : Heap) (a : Nat) (v : Int), p.LastHandshakeAt = some a →
      ∀ q, RefStore.lookup s id = some q →
        derefHandshake (heapWriteTime heap a v) q = some v) := by
  have hl : RefStore.lookup s id = some p := by
    unfold RefStore.get at h
    cases hlk : RefStore.lookup s id with
    | none => rw [hlk] at h; cases h
    | some q =>
        rw [hlk] at h
        injection h with h2
        rw [h2]
  refine ⟨hl, ?_, ?_⟩
  · intro q hq
    rw [hl] at hq
    injection hq with hq2
    subst hq2
    exact ⟨rfl, rfl⟩
  · intro heap a v hpa q hq
    rw [hl] at hq
    injection hq with hq2
    subst hq2
    unfold derefHandshake heapWriteTime
    rw [hpa]
    simp

/-- Witness for the amended C8: at the concrete store, the copy equals the
stored record and a write of 50 through its handshake pointer is read back
through the stored record. -/
theorem get_returns_shallow_copy_witness :
    RefStore.get refDemoStore "p" = .ok refDemoPeer ∧
    RefStore.lookup refDemoStore "p" = some refDemoPeer ∧
    refDemoPeer.LastHandshakeAt = some 7 ∧
    derefHandshake (heapWriteTime refDemoHeap 7 50) refDemoPeer = some 50 :=
  ⟨rfl, rfl, rfl,
   (get_returns_shallow_copy refDemoStore "p" refDemoPeer rfl).2.2
     refDemoHeap 7 50 rfl refDemoPeer rfl⟩
